import Mathlib

/-!
Verification development for the audioFlux Python bindings of the
Stockwell-family transforms: ST (st.py), FST (fst.py) and PWT (pwt.py).

Machine floats are embedded as rationals, Python ints as integers.
Fallible Python code (raise) is embedded as Except String.
-/

set_option maxRecDepth 4000

/-- Modelled from the spec: audioflux.utils.check_audio is not under src/.
Spec section 7 (InputError): it validates the array shape and dtype.  The
embedding fixes both statically (a one-dimensional list of rationals), so the
check always succeeds here. -/
def check_audio (_data_arr : List ℚ) : Except String Unit := Except.ok ()

/-- Modelled from the spec: audioflux.utils.check_audio_length is not under
src/.  Spec section 4.4 step 1 and section 7: the call validates that the
signal length equals fft_length exactly, raising an InputError otherwise,
with no partial computation, padding or truncation. -/
def check_audio_length (data_arr : List ℚ) (radix2_exp : ℕ) : Except String (List ℚ) :=
  if data_arr.length = 2 ^ radix2_exp then Except.ok data_arr
  else Except.error "invalid audio length"

/-- Embedding of numpy.linspace restricted to how x_coords uses it:
n evenly spaced points from start to stop inclusive. -/
def linspace (start stop : ℚ) (n : ℕ) : List ℚ :=
  (List.range n).map (fun (i : ℕ) => start + (stop - start) * (i : ℚ) / ((n : ℚ) - 1))

/-- Embedding of the shared x_coords body of st.py, fst.py and pwt.py:
numpy.linspace from 0 to fft_length / samplate with fft_length + 1 points.
Python evaluates fft_length / samplate with true division, which raises
ZeroDivisionError when samplate is 0; this is embedded as an error. -/
def x_coords_generic (fft_length samplate : ℤ) : Except String (List ℚ) :=
  if samplate = 0 then Except.error "division by zero"
  else Except.ok (linspace 0 ((fft_length : ℚ) / (samplate : ℚ)) (fft_length.toNat + 1))

/-- Configuration state of a successfully constructed ST instance
(the fields set by ST.__init__ in st.py). -/
structure STConf where
  radix2_exp : ℕ
  samplate : ℤ
  min_index : ℤ
  max_index : ℤ
  factor : ℚ
  norm : ℚ
  fft_length : ℤ
  num : ℤ
deriving DecidableEq, Repr

namespace ST

/-- Embedding of the validation and field assignment of ST.__init__ (st.py
lines 103-137) after the max_index default has been resolved.  The check
max_index >= fft_length / 2 uses Python true division, embedded in ℚ. -/
def initCore (radix2_exp : ℕ) (min_index max_index samplate : ℤ)
    (factor norm : ℚ) : Except String STConf :=
  if min_index < 1 then
    Except.error "min_index must be a positive integer."
  else if ((max_index : ℚ) ≥ ((2 ^ radix2_exp : ℤ) : ℚ) / 2) then
    Except.error "max_index must be less than or equal to fft_length div 2"
  else if min_index ≥ max_index then
    Except.error "min_index must be less than max_index"
  else
    Except.ok { radix2_exp := radix2_exp, samplate := samplate,
                min_index := min_index, max_index := max_index,
                factor := factor, norm := norm,
                fft_length := 2 ^ radix2_exp,
                num := max_index - min_index + 1 }

/-- Embedding of ST.__init__: when max_index is None it defaults to
fft_length // 2 - 1 (integer floor division). -/
def init (radix2_exp : ℕ) (min_index : ℤ) (max_index : Option ℤ)
    (samplate : ℤ) (factor norm : ℚ) : Except String STConf :=
  initCore radix2_exp min_index
    (max_index.getD ((2 ^ radix2_exp : ℤ) / 2 - 1)) samplate factor norm

/-- Embedding of ST.get_fre_band_arr (st.py line 182):
numpy.arange(min_index, max_index + 1) * samplate / fft_length. -/
def get_fre_band_arr (c : STConf) : List ℚ :=
  (List.range c.num.toNat).map
    (fun (i : ℕ) => ((c.min_index + (i : ℤ) : ℤ) : ℚ) * (c.samplate : ℚ) / (c.fft_length : ℚ))

/-- Embedding of ST.st (st.py lines 184-213).  The native stObj_st call
writes elementwise into the two preallocated (num, fft_length) buffers; the
written values are abstracted as an arbitrary fill function giving the
(real, imag) pair of each cell, since only the Python side is under src/. -/
def st (c : STConf) (fill : ℕ → ℕ → ℚ × ℚ) (data_arr : List ℚ) :
    Except String (List (List (ℚ × ℚ))) :=
  match check_audio data_arr with
  | Except.error e => Except.error e
  | Except.ok _ =>
    match check_audio_length data_arr c.radix2_exp with
    | Except.error e => Except.error e
    | Except.ok _ =>
      Except.ok ((List.range c.num.toNat).map (fun i =>
        (List.range c.fft_length.toNat).map (fun j => fill i j)))

/-- Embedding of ST.y_coords (st.py lines 215-225):
numpy.insert(fre_band_arr, 0, fre_band_arr[0]).  Indexing position 0 of an
empty array would raise IndexError, embedded as an error. -/
def y_coords (c : STConf) : Except String (List ℚ) :=
  match (get_fre_band_arr c).head? with
  | Option.none => Except.error "index 0 is out of bounds"
  | Option.some h => Except.ok (h :: get_fre_band_arr c)

/-- Embedding of ST.x_coords (st.py lines 227-236). -/
def x_coords (c : STConf) : Except String (List ℚ) :=
  x_coords_generic c.fft_length c.samplate

end ST

/-- Configuration state of a successfully constructed FST instance
(the fields set by FST.__init__ in fst.py). -/
structure FSTConf where
  radix2_exp : ℕ
  min_index : ℤ
  max_index : ℤ
  samplate : ℤ
  fft_length : ℤ
  num : ℤ
deriving DecidableEq, Repr

namespace FST

/-- Embedding of the validation and field assignment of FST.__init__ (fst.py
lines 97-124) after the max_index default has been resolved.  Note the
check is the same strict one as in ST: max_index >= fft_length / 2 raises,
so max_index equal to fft_length / 2 is rejected. -/
def initCore (radix2_exp : ℕ) (min_index max_index samplate : ℤ) :
    Except String FSTConf :=
  if min_index < 1 then
    Except.error "min_index must be a positive integer."
  else if ((max_index : ℚ) ≥ ((2 ^ radix2_exp : ℤ) : ℚ) / 2) then
    Except.error "max_index must be less than or equal to fft_length div 2"
  else if min_index ≥ max_index then
    Except.error "min_index must be less than max_index"
  else
    Except.ok { radix2_exp := radix2_exp, min_index := min_index,
                max_index := max_index, samplate := samplate,
                fft_length := 2 ^ radix2_exp,
                num := max_index - min_index + 1 }

/-- Embedding of FST.__init__: when max_index is None it defaults to
fft_length // 2 - 1 (integer floor division). -/
def init (radix2_exp : ℕ) (min_index : ℤ) (max_index : Option ℤ)
    (samplate : ℤ) : Except String FSTConf :=
  initCore radix2_exp min_index
    (max_index.getD ((2 ^ radix2_exp : ℤ) / 2 - 1)) samplate

/-- Embedding of FST.get_fre_band_arr (fst.py line 135). -/
def get_fre_band_arr (c : FSTConf) : List ℚ :=
  (List.range c.num.toNat).map
    (fun (i : ℕ) => ((c.min_index + (i : ℤ) : ℤ) : ℚ) * (c.samplate : ℚ) / (c.fft_length : ℚ))

/-- Embedding of FST.fst (fst.py lines 138-169), with the native fstObj_fst
fill of the preallocated (num, fft_length) buffers abstracted as a function. -/
def fst (c : FSTConf) (fill : ℕ → ℕ → ℚ × ℚ) (data_arr : List ℚ) :
    Except String (List (List (ℚ × ℚ))) :=
  match check_audio data_arr with
  | Except.error e => Except.error e
  | Except.ok _ =>
    match check_audio_length data_arr c.radix2_exp with
    | Except.error e => Except.error e
    | Except.ok _ =>
      Except.ok ((List.range c.num.toNat).map (fun i =>
        (List.range c.fft_length.toNat).map (fun j => fill i j)))

/-- Embedding of FST.y_coords (fst.py lines 171-181). -/
def y_coords (c : FSTConf) : Except String (List ℚ) :=
  match (get_fre_band_arr c).head? with
  | Option.none => Except.error "index 0 is out of bounds"
  | Option.some h => Except.ok (h :: get_fre_band_arr c)

/-- Embedding of FST.x_coords (fst.py lines 183-192). -/
def x_coords (c : FSTConf) : Except String (List ℚ) :=
  x_coords_generic c.fft_length c.samplate

end FST

/-- Modelled from the spec: audioflux.type.SpectralFilterBankScaleType is not
under src/.  Spec sections 2 and 4.2 list the scale variants linear,
linspace, mel, bark, erb, log and octave. -/
inductive SpectralFilterBankScaleType
  | linear
  | linspace
  | mel
  | bark
  | erb
  | log
  | octave
deriving DecidableEq, Repr

/-- Modelled from the spec: audioflux.type.SpectralFilterBankStyleType is not
under src/.  Only the slaney style named by the spec is needed here. -/
inductive SpectralFilterBankStyleType
  | slaney
deriving DecidableEq, Repr

/-- Modelled from the spec: audioflux.type.SpectralFilterBankNormalType is
not under src/.  Spec section 4.3 names the variants none, area and a
bandwidth-based one. -/
inductive SpectralFilterBankNormalType
  | norm_none
  | area
  | bandWidth
deriving DecidableEq, Repr

/-- Modelled from the spec: audioflux.utils.note_to_hz is not under src/.
The spec (sections 3 and 8, and the pwt.py docstring) gives the pitch C1 as
32.703 Hz, the value pwt.py rounds the threshold to. -/
def note_to_hz_C1 : ℚ := 32703 / 1000

/-- Configuration state of a successfully constructed PWT instance
(the fields set by PWT.__init__ in pwt.py). -/
structure PWTConf where
  num : ℤ
  radix2_exp : ℕ
  samplate : ℤ
  low_fre : ℚ
  high_fre : ℚ
  bin_per_octave : ℤ
  scale_type : SpectralFilterBankScaleType
  style_type : SpectralFilterBankStyleType
  normal_type : SpectralFilterBankNormalType
  is_padding : Bool
  fft_length : ℤ
deriving DecidableEq, Repr

namespace PWT

/-- The Python default of the low_fre keyword of PWT.__init__ (pwt.py line
132): the literal 0.0, not None. -/
def default_low_fre : Option ℚ := Option.some 0

/-- The Python default of the high_fre keyword of PWT.__init__ (pwt.py line
132): the literal 16000.0, not None. -/
def default_high_fre : Option ℚ := Option.some 16000

/-- Modelled from the spec: the native constructor pwtObj_new is not under
src/.  Spec section 6 requires num > 0 and samplate > 0 of every valid
configuration, and section 7 makes violations construction-time ConfigErrors;
this predicate is the acceptance condition of the modelled native
constructor. -/
abbrev native_new_valid (num samplate : ℤ) : Prop :=
  1 ≤ num ∧ 1 ≤ samplate

/-- Resolution of a None low_fre in PWT.__init__ (pwt.py lines 143-148):
None defaults to 32.703 for the octave and log scales and to 0.0 otherwise. -/
def resolve_low_fre (low_fre : Option ℚ)
    (scale_type : SpectralFilterBankScaleType) : ℚ :=
  low_fre.getD
    (if scale_type = SpectralFilterBankScaleType.octave ∨
        scale_type = SpectralFilterBankScaleType.log
     then note_to_hz_C1 else 0)

/-- Resolution of a None high_fre in PWT.__init__ (pwt.py lines 150-151):
None defaults to samplate / 2. -/
def resolve_high_fre (high_fre : Option ℚ) (samplate : ℤ) : ℚ :=
  high_fre.getD ((samplate : ℚ) / 2)

/-- Embedding of the validation and field assignment of PWT.__init__ (pwt.py
lines 131-191).  low_fre and high_fre are Option values; Option.none is the
Python None, and an omitted keyword is the corresponding Python default
(default_low_fre, default_high_fre).  The check order follows the source:
bin_per_octave, then the None defaults, then the low_fre checks, then the
native constructor (modelled from the spec as native_new_valid). -/
def init (num : ℤ) (radix2_exp : ℕ) (samplate : ℤ)
    (low_fre high_fre : Option ℚ) (bin_per_octave : ℤ)
    (scale_type : SpectralFilterBankScaleType)
    (style_type : SpectralFilterBankStyleType)
    (normal_type : SpectralFilterBankNormalType)
    (is_padding : Bool) : Except String PWTConf :=
  if scale_type = SpectralFilterBankScaleType.octave ∧ bin_per_octave < 1 then
    Except.error "bin_per_octave must be a positive integer"
  else if (scale_type = SpectralFilterBankScaleType.octave ∨
           scale_type = SpectralFilterBankScaleType.log) ∧
          resolve_low_fre low_fre scale_type < note_to_hz_C1 then
    Except.error "low_fre must be greater than or equal to 32.703"
  else if resolve_low_fre low_fre scale_type < 0 then
    Except.error "low_fre must be a non-negative number"
  else if native_new_valid num samplate then
    Except.ok { num := num, radix2_exp := radix2_exp, samplate := samplate,
                low_fre := resolve_low_fre low_fre scale_type,
                high_fre := resolve_high_fre high_fre samplate,
                bin_per_octave := bin_per_octave,
                scale_type := scale_type, style_type := style_type,
                normal_type := normal_type, is_padding := is_padding,
                fft_length := 2 ^ radix2_exp }
  else Except.error "invalid num or samplate"

/-- Modelled from the spec: pwtObj_getFreBandArr is native code absent from
src/.  Spec sections 2 and 4.2 and the pwt.py docstring fix that the
Frequency Band Generator produces an ordered sequence of num center
frequencies starting at low_fre and spaced between low_fre and high_fre
according to scale_type.  The scale-dependent spacing (mel, bark and erb
warping, and the octave geometric ratio) involves transcendental functions,
so this model keeps the spec-guaranteed skeleton only: num entries, the
i-th being low_fre plus a spacing offset that is 0 at i = 0, with the even
in-Hz spacing as the concrete offset for every scale.  Claims settled
against it use only the length and the first entry, which the spec fixes
for all scales. -/
def get_fre_band_arr (c : PWTConf) : List ℚ :=
  (List.range c.num.toNat).map (fun (i : ℕ) =>
    c.low_fre +
      (if c.num ≤ 1 then 0
       else (i : ℚ) * (c.high_fre - c.low_fre) / ((c.num : ℚ) - 1)))

/-- Embedding of PWT.pwt (pwt.py lines 226-257), with the native pwtObj_pwt
fill of the preallocated (num, fft_length) buffers abstracted as a function. -/
def pwt (c : PWTConf) (fill : ℕ → ℕ → ℚ × ℚ) (data_arr : List ℚ) :
    Except String (List (List (ℚ × ℚ))) :=
  match check_audio data_arr with
  | Except.error e => Except.error e
  | Except.ok _ =>
    match check_audio_length data_arr c.radix2_exp with
    | Except.error e => Except.error e
    | Except.ok _ =>
      Except.ok ((List.range c.num.toNat).map (fun i =>
        (List.range c.fft_length.toNat).map (fun j => fill i j)))

/-- Embedding of PWT.y_coords (pwt.py lines 307-317):
numpy.insert(get_fre_band_arr(), 0, low_fre).  Unlike ST and FST, the
prepended value is the stored low_fre field, and no indexing occurs. -/
def y_coords (c : PWTConf) : List ℚ :=
  c.low_fre :: get_fre_band_arr c

/-- Embedding of PWT.x_coords (pwt.py lines 319-328). -/
def x_coords (c : PWTConf) : Except String (List ℚ) :=
  x_coords_generic c.fft_length c.samplate

end PWT

/-- Decidable check that an Except value is a success. -/
def exceptOk {ε α : Type} (e : Except ε α) : Bool :=
  match e with
  | Except.ok _ => true
  | Except.error _ => false

/-- Characterization of a successful ST construction: the stored fields and
the validated parameter constraints. -/
theorem st_initCore_ok_spec {r : ℕ} {mi mx s : ℤ} {f n : ℚ} {c : STConf}
    (h : ST.initCore r mi mx s f n = Except.ok c) :
    c = { radix2_exp := r, samplate := s, min_index := mi, max_index := mx,
          factor := f, norm := n, fft_length := 2 ^ r,
          num := mx - mi + 1 } ∧
    1 ≤ mi ∧ ((mx : ℚ) < ((2 ^ r : ℤ) : ℚ) / 2) ∧ mi < mx := by
  unfold ST.initCore at h
  split_ifs at h with h1 h2 h3
  all_goals first
    | exact Except.noConfusion h
    | exact ⟨((Except.ok.injEq _ _).mp h).symm, by omega,
        by linarith [not_le.mp h2], by omega⟩

/-- The successful direction of ST construction. -/
theorem st_initCore_ok_of {r : ℕ} {mi mx s : ℤ} {f n : ℚ}
    (h1 : 1 ≤ mi) (h2 : (mx : ℚ) < ((2 ^ r : ℤ) : ℚ) / 2) (h3 : mi < mx) :
    ST.initCore r mi mx s f n =
      Except.ok { radix2_exp := r, samplate := s, min_index := mi,
                  max_index := mx, factor := f, norm := n,
                  fft_length := 2 ^ r, num := mx - mi + 1 } := by
  unfold ST.initCore
  rw [if_neg (by omega), if_neg (by push_neg; linarith), if_neg (by omega)]

/-- Characterization of a successful FST construction. -/
theorem fst_initCore_ok_spec {r : ℕ} {mi mx s : ℤ} {c : FSTConf}
    (h : FST.initCore r mi mx s = Except.ok c) :
    c = { radix2_exp := r, min_index := mi, max_index := mx, samplate := s,
          fft_length := 2 ^ r, num := mx - mi + 1 } ∧
    1 ≤ mi ∧ ((mx : ℚ) < ((2 ^ r : ℤ) : ℚ) / 2) ∧ mi < mx := by
  unfold FST.initCore at h
  split_ifs at h with h1 h2 h3
  all_goals first
    | exact Except.noConfusion h
    | exact ⟨((Except.ok.injEq _ _).mp h).symm, by omega,
        by linarith [not_le.mp h2], by omega⟩

/-- The successful direction of FST construction. -/
theorem fst_initCore_ok_of {r : ℕ} {mi mx s : ℤ}
    (h1 : 1 ≤ mi) (h2 : (mx : ℚ) < ((2 ^ r : ℤ) : ℚ) / 2) (h3 : mi < mx) :
    FST.initCore r mi mx s =
      Except.ok { radix2_exp := r, min_index := mi, max_index := mx,
                  samplate := s, fft_length := 2 ^ r,
                  num := mx - mi + 1 } := by
  unfold FST.initCore
  rw [if_neg (by omega), if_neg (by push_neg; linarith), if_neg (by omega)]

/-- Characterization of a successful PWT construction. -/
theorem PWT.init_ok_spec {num : ℤ} {r : ℕ} {s : ℤ} {lf hf : Option ℚ}
    {bpo : ℤ} {sc : SpectralFilterBankScaleType}
    {sty : SpectralFilterBankStyleType} {nt : SpectralFilterBankNormalType}
    {pad : Bool} {c : PWTConf}
    (h : PWT.init num r s lf hf bpo sc sty nt pad = Except.ok c) :
    c = { num := num, radix2_exp := r, samplate := s,
          low_fre := PWT.resolve_low_fre lf sc,
          high_fre := PWT.resolve_high_fre hf s, bin_per_octave := bpo,
          scale_type := sc, style_type := sty, normal_type := nt,
          is_padding := pad, fft_length := 2 ^ r } ∧
    1 ≤ num ∧ 1 ≤ s := by
  unfold PWT.init at h
  split_ifs at h with h1 h2 h3 h4
  all_goals first
    | exact Except.noConfusion h
    | exact ⟨((Except.ok.injEq _ _).mp h).symm, h4.1, h4.2⟩

/-- The successful direction of PWT construction. -/
theorem PWT.init_ok_of {num : ℤ} {r : ℕ} {s : ℤ} {lf hf : Option ℚ}
    {bpo : ℤ} {sc : SpectralFilterBankScaleType}
    {sty : SpectralFilterBankStyleType} {nt : SpectralFilterBankNormalType}
    {pad : Bool}
    (hbpo : sc = SpectralFilterBankScaleType.octave → 1 ≤ bpo)
    (hlow1 : (sc = SpectralFilterBankScaleType.octave ∨
              sc = SpectralFilterBankScaleType.log) →
             ¬ (PWT.resolve_low_fre lf sc < note_to_hz_C1))
    (hlow2 : ¬ (PWT.resolve_low_fre lf sc < 0))
    (hnum : 1 ≤ num) (hs : 1 ≤ s) :
    PWT.init num r s lf hf bpo sc sty nt pad =
      Except.ok { num := num, radix2_exp := r, samplate := s,
                  low_fre := PWT.resolve_low_fre lf sc,
                  high_fre := PWT.resolve_high_fre hf s,
                  bin_per_octave := bpo, scale_type := sc, style_type := sty,
                  normal_type := nt, is_padding := pad,
                  fft_length := 2 ^ r } := by
  unfold PWT.init
  rw [if_neg (by rintro ⟨hoct, hlt⟩; have := hbpo hoct; omega),
      if_neg (by rintro ⟨hd, hlt⟩; exact hlow1 hd hlt),
      if_neg hlow2, if_pos ⟨hnum, hs⟩]

/-- Reduction of ST.st when the input signal has the accepted length. -/
theorem ST.st_ok (c : STConf) (fill : ℕ → ℕ → ℚ × ℚ) (data : List ℚ)
    (hdl : data.length = 2 ^ c.radix2_exp) :
    ST.st c fill data =
      Except.ok ((List.range c.num.toNat).map (fun i =>
        (List.range c.fft_length.toNat).map (fun j => fill i j))) := by
  simp [ST.st, check_audio, check_audio_length, hdl]

/-- Reduction of FST.fst when the input signal has the accepted length. -/
theorem FST.fst_ok (c : FSTConf) (fill : ℕ → ℕ → ℚ × ℚ) (data : List ℚ)
    (hdl : data.length = 2 ^ c.radix2_exp) :
    FST.fst c fill data =
      Except.ok ((List.range c.num.toNat).map (fun i =>
        (List.range c.fft_length.toNat).map (fun j => fill i j))) := by
  simp [FST.fst, check_audio, check_audio_length, hdl]

/-- Reduction of PWT.pwt when the input signal has the accepted length. -/
theorem PWT.pwt_ok (c : PWTConf) (fill : ℕ → ℕ → ℚ × ℚ) (data : List ℚ)
    (hdl : data.length = 2 ^ c.radix2_exp) :
    PWT.pwt c fill data =
      Except.ok ((List.range c.num.toNat).map (fun i =>
        (List.range c.fft_length.toNat).map (fun j => fill i j))) := by
  simp [PWT.pwt, check_audio, check_audio_length, hdl]

/-- Helper: the transform body shape, shared by the three transforms. -/
theorem transform_shape (numv fftv : ℤ) (fill : ℕ → ℕ → ℚ × ℚ)
    (hnum : 0 ≤ numv) (hfft : 0 ≤ fftv) :
    (((List.range numv.toNat).map (fun i =>
        (List.range fftv.toNat).map (fun j => fill i j))).length : ℤ) = numv ∧
    ∀ row ∈ (List.range numv.toNat).map (fun i =>
        (List.range fftv.toNat).map (fun j => fill i j)),
      (row.length : ℤ) = fftv := by
  constructor
  · rw [List.length_map, List.length_range]
    exact Int.toNat_of_nonneg hnum
  · intro row hrow
    rcases List.mem_map.mp hrow with ⟨i, _, hi⟩
    rw [← hi, List.length_map, List.length_range]
    exact Int.toNat_of_nonneg hfft

/-- C1: for every successfully constructed ST, FST or PWT instance and every
accepted input signal of length fft_length, the transform operation returns a
matrix with exactly num rows, each of length fft_length (in the embedding,
for every possible elementwise fill the native routine can produce). -/
theorem claim_C1_transform_shape :
    (∀ (r : ℕ) (mi : ℤ) (mx : Option ℤ) (s : ℤ) (f n : ℚ) (c : STConf)
       (fill : ℕ → ℕ → ℚ × ℚ) (data : List ℚ),
       ST.init r mi mx s f n = Except.ok c →
       (data.length : ℤ) = c.fft_length →
       ∃ m, ST.st c fill data = Except.ok m ∧
         (m.length : ℤ) = c.num ∧ ∀ row ∈ m, (row.length : ℤ) = c.fft_length) ∧
    (∀ (r : ℕ) (mi : ℤ) (mx : Option ℤ) (s : ℤ) (c : FSTConf)
       (fill : ℕ → ℕ → ℚ × ℚ) (data : List ℚ),
       FST.init r mi mx s = Except.ok c →
       (data.length : ℤ) = c.fft_length →
       ∃ m, FST.fst c fill data = Except.ok m ∧
         (m.length : ℤ) = c.num ∧ ∀ row ∈ m, (row.length : ℤ) = c.fft_length) ∧
    (∀ (num : ℤ) (r : ℕ) (s : ℤ) (lf hf : Option ℚ) (bpo : ℤ)
       (sc : SpectralFilterBankScaleType) (sty : SpectralFilterBankStyleType)
       (nt : SpectralFilterBankNormalType) (pad : Bool) (c : PWTConf)
       (fill : ℕ → ℕ → ℚ × ℚ) (data : List ℚ),
       PWT.init num r s lf hf bpo sc sty nt pad = Except.ok c →
       (data.length : ℤ) = c.fft_length →
       ∃ m, PWT.pwt c fill data = Except.ok m ∧
         (m.length : ℤ) = c.num ∧ ∀ row ∈ m, (row.length : ℤ) = c.fft_length) := by
  refine ⟨?_, ?_, ?_⟩
  · intro r mi mx s f n c fill data h hlen
    unfold ST.init at h
    obtain ⟨hc, hmi, hmx, hlt⟩ := st_initCore_ok_spec h
    subst hc
    simp only at hlen ⊢
    have hdl : data.length = 2 ^ r := by exact_mod_cast hlen
    refine ⟨_, ST.st_ok _ fill data hdl, ?_⟩
    exact transform_shape _ _ fill (by dsimp only; omega) (by dsimp only; positivity)
  · intro r mi mx s c fill data h hlen
    unfold FST.init at h
    obtain ⟨hc, hmi, hmx, hlt⟩ := fst_initCore_ok_spec h
    subst hc
    simp only at hlen ⊢
    have hdl : data.length = 2 ^ r := by exact_mod_cast hlen
    refine ⟨_, FST.fst_ok _ fill data hdl, ?_⟩
    exact transform_shape _ _ fill (by dsimp only; omega) (by dsimp only; positivity)
  · intro num r s lf hf bpo sc sty nt pad c fill data h hlen
    obtain ⟨hc, hnum, hs⟩ := PWT.init_ok_spec h
    subst hc
    simp only at hlen ⊢
    have hdl : data.length = 2 ^ r := by exact_mod_cast hlen
    refine ⟨_, PWT.pwt_ok _ fill data hdl, ?_⟩
    exact transform_shape _ _ fill (by dsimp only; omega) (by dsimp only; positivity)

/-- C1 witness: a concrete ST instance with radix2_exp 3 and a length-8
signal, a concrete FST instance, and a concrete PWT instance. -/
theorem claim_C1_transform_shape_witness :
    (∃ m, ST.st ⟨3, 32000, 1, 3, 1, 1, 8, 3⟩ (fun _ _ => (0, 0))
        (List.replicate 8 0) = Except.ok m ∧
      (m.length : ℤ) = (3 : ℤ) ∧
      ∀ row ∈ m, (row.length : ℤ) = (8 : ℤ)) := by
  have h := claim_C1_transform_shape.1 3 1 Option.none 32000 1 1
    ⟨3, 32000, 1, 3, 1, 1, 8, 3⟩ (fun _ _ => (0, 0)) (List.replicate 8 0)
    (by norm_num [ST.init, ST.initCore]) (by simp)
  exact h

/-- Helper: properties of the arithmetic frequency band sequence shared by
ST.get_fre_band_arr and FST.get_fre_band_arr, for a positive sampling rate. -/
theorem band_arr_props (mi mx s F : ℤ) (hs : 1 ≤ s) (hF : 0 < F)
    (hmm : mi < mx) :
    (((List.range (mx - mi + 1).toNat).map
        (fun (i : ℕ) => ((mi + (i : ℤ) : ℤ) : ℚ) * (s : ℚ) / (F : ℚ))).length : ℤ) =
      mx - mi + 1 ∧
    List.Pairwise (fun a b => a < b)
      ((List.range (mx - mi + 1).toNat).map
        (fun (i : ℕ) => ((mi + (i : ℤ) : ℤ) : ℚ) * (s : ℚ) / (F : ℚ))) ∧
    (∀ i (h : i < ((List.range (mx - mi + 1).toNat).map
        (fun (i : ℕ) => ((mi + (i : ℤ) : ℤ) : ℚ) * (s : ℚ) / (F : ℚ))).length),
      ((List.range (mx - mi + 1).toNat).map
        (fun (i : ℕ) => ((mi + (i : ℤ) : ℤ) : ℚ) * (s : ℚ) / (F : ℚ))).get ⟨i, h⟩ =
        ((mi + (i : ℤ) : ℤ) : ℚ) * (s : ℚ) / (F : ℚ)) ∧
    (∀ x ∈ (List.range (mx - mi + 1).toNat).map
        (fun (i : ℕ) => ((mi + (i : ℤ) : ℤ) : ℚ) * (s : ℚ) / (F : ℚ)),
      (mi : ℚ) * (s : ℚ) / (F : ℚ) ≤ x ∧ x ≤ (mx : ℚ) * (s : ℚ) / (F : ℚ)) := by
  have hsQ : (0 : ℚ) < (s : ℚ) := by exact_mod_cast (by omega : (0 : ℤ) < s)
  have hFQ : (0 : ℚ) < (F : ℚ) := by exact_mod_cast hF
  refine ⟨?_, ?_, ?_, ?_⟩
  · rw [List.length_map, List.length_range]
    omega
  · rw [List.pairwise_map]
    refine List.Pairwise.imp ?_ (List.pairwise_lt_range _)
    intro a b hab
    have hcast : ((mi + (a : ℤ) : ℤ) : ℚ) < ((mi + (b : ℤ) : ℤ) : ℚ) := by
      exact_mod_cast (by omega : mi + (a : ℤ) < mi + (b : ℤ))
    exact div_lt_div_of_pos_right (mul_lt_mul_of_pos_right hcast hsQ) hFQ
  · intro i h
    simp [List.get_eq_getElem, List.getElem_map, List.getElem_range]
  · intro x hx
    rcases List.mem_map.mp hx with ⟨i, hi, rfl⟩
    have hi' : (i : ℤ) ≤ mx - mi := by
      have := List.mem_range.mp hi
      omega
    constructor
    · apply div_le_div_of_nonneg_right ?_ hFQ.le
      apply mul_le_mul_of_nonneg_right ?_ hsQ.le
      exact_mod_cast (by omega : mi ≤ mi + (i : ℤ))
    · apply div_le_div_of_nonneg_right ?_ hFQ.le
      apply mul_le_mul_of_nonneg_right ?_ hsQ.le
      exact_mod_cast (by omega : mi + (i : ℤ) ≤ mx)

/-- C2 (amended): for every successfully constructed ST or FST instance whose
samplate is positive, get_fre_band_arr returns a strictly increasing sequence
of length num = max_index - min_index + 1 whose i-th element is
(min_index + i) * samplate / fft_length, every value lying between
min_index * samplate / fft_length and max_index * samplate / fft_length. -/
theorem claim_C2_fre_band_arr :
    (∀ (r : ℕ) (mi : ℤ) (mx : Option ℤ) (s : ℤ) (f n : ℚ) (c : STConf),
      ST.init r mi mx s f n = Except.ok c → 1 ≤ s →
      (((ST.get_fre_band_arr c).length : ℤ) = c.num ∧
       c.num = c.max_index - c.min_index + 1 ∧
       List.Pairwise (fun a b => a < b) (ST.get_fre_band_arr c) ∧
       (∀ i (h : i < (ST.get_fre_band_arr c).length),
         (ST.get_fre_band_arr c).get ⟨i, h⟩ =
           ((c.min_index + (i : ℤ) : ℤ) : ℚ) * (s : ℚ) / ((2 ^ r : ℤ) : ℚ)) ∧
       (∀ x ∈ ST.get_fre_band_arr c,
         (c.min_index : ℚ) * (s : ℚ) / ((2 ^ r : ℤ) : ℚ) ≤ x ∧
         x ≤ (c.max_index : ℚ) * (s : ℚ) / ((2 ^ r : ℤ) : ℚ)))) ∧
    (∀ (r : ℕ) (mi : ℤ) (mx : Option ℤ) (s : ℤ) (c : FSTConf),
      FST.init r mi mx s = Except.ok c → 1 ≤ s →
      (((FST.get_fre_band_arr c).length : ℤ) = c.num ∧
       c.num = c.max_index - c.min_index + 1 ∧
       List.Pairwise (fun a b => a < b) (FST.get_fre_band_arr c) ∧
       (∀ i (h : i < (FST.get_fre_band_arr c).length),
         (FST.get_fre_band_arr c).get ⟨i, h⟩ =
           ((c.min_index + (i : ℤ) : ℤ) : ℚ) * (s : ℚ) / ((2 ^ r : ℤ) : ℚ)) ∧
       (∀ x ∈ FST.get_fre_band_arr c,
         (c.min_index : ℚ) * (s : ℚ) / ((2 ^ r : ℤ) : ℚ) ≤ x ∧
         x ≤ (c.max_index : ℚ) * (s : ℚ) / ((2 ^ r : ℤ) : ℚ)))) := by
  constructor
  · intro r mi mx s f n c h hs
    unfold ST.init at h
    obtain ⟨hc, hmi, hmx, hlt⟩ := st_initCore_ok_spec h
    subst hc
    have hF : (0 : ℤ) < 2 ^ r := by positivity
    have := band_arr_props mi (mx.getD ((2 ^ r : ℤ) / 2 - 1)) s (2 ^ r) hs hF hlt
    simpa [ST.get_fre_band_arr] using this
  · intro r mi mx s c h hs
    unfold FST.init at h
    obtain ⟨hc, hmi, hmx, hlt⟩ := fst_initCore_ok_spec h
    subst hc
    have hF : (0 : ℤ) < 2 ^ r := by positivity
    have := band_arr_props mi (mx.getD ((2 ^ r : ℤ) / 2 - 1)) s (2 ^ r) hs hF hlt
    simpa [FST.get_fre_band_arr] using this

/-- C2 counterexample: the constructor never validates samplate, so the ST
instance with radix2_exp 3 and samplate 0 is successfully constructed, yet
its frequency band array is the constant sequence 0, 0, 0, which is not
strictly increasing. -/
theorem claim_C2_counterexample :
    (ST.init 3 1 Option.none 0 1 1).toOption.map ST.get_fre_band_arr =
      Option.some [0, 0, 0] ∧
    ¬ List.Pairwise (fun (a : ℚ) (b : ℚ) => a < b) [0, 0, 0] := by
  constructor
  · have h0 : ST.init 3 1 Option.none 0 1 1 =
        Except.ok ⟨3, 0, 1, 3, 1, 1, 8, 3⟩ := by
      norm_num [ST.init, ST.initCore]
    rw [h0]
    have h : Int.toNat 3 = 3 := rfl
    simp only [Except.toOption, Option.map, ST.get_fre_band_arr, h]
    rw [show List.range 3 = [0, 1, 2] by norm_num [List.range_succ]]
    norm_num
  · simp

/-- C2 witness: a concrete ST instance with radix2_exp 3, samplate 32000. -/
theorem claim_C2_fre_band_arr_witness :
    ((ST.get_fre_band_arr ⟨3, 32000, 1, 3, 1, 1, 8, 3⟩).length : ℤ) =
        (⟨3, 32000, 1, 3, 1, 1, 8, 3⟩ : STConf).num ∧
      (⟨3, 32000, 1, 3, 1, 1, 8, 3⟩ : STConf).num =
        (⟨3, 32000, 1, 3, 1, 1, 8, 3⟩ : STConf).max_index -
          (⟨3, 32000, 1, 3, 1, 1, 8, 3⟩ : STConf).min_index + 1 ∧
      List.Pairwise (fun a b => a < b)
        (ST.get_fre_band_arr ⟨3, 32000, 1, 3, 1, 1, 8, 3⟩) ∧
      (∀ i (h : i < (ST.get_fre_band_arr ⟨3, 32000, 1, 3, 1, 1, 8, 3⟩).length),
        (ST.get_fre_band_arr ⟨3, 32000, 1, 3, 1, 1, 8, 3⟩).get ⟨i, h⟩ =
          (((⟨3, 32000, 1, 3, 1, 1, 8, 3⟩ : STConf).min_index + (i : ℤ) : ℤ) : ℚ) *
            ((32000 : ℤ) : ℚ) / ((2 ^ 3 : ℤ) : ℚ)) ∧
      (∀ x ∈ ST.get_fre_band_arr ⟨3, 32000, 1, 3, 1, 1, 8, 3⟩,
        ((⟨3, 32000, 1, 3, 1, 1, 8, 3⟩ : STConf).min_index : ℚ) *
            ((32000 : ℤ) : ℚ) / ((2 ^ 3 : ℤ) : ℚ) ≤ x ∧
        x ≤ ((⟨3, 32000, 1, 3, 1, 1, 8, 3⟩ : STConf).max_index : ℚ) *
            ((32000 : ℤ) : ℚ) / ((2 ^ 3 : ℤ) : ℚ)) := by
  exact claim_C2_fre_band_arr.1 3 1 Option.none 32000 1 1
    ⟨3, 32000, 1, 3, 1, 1, 8, 3⟩
    (by norm_num [ST.init, ST.initCore]) (by norm_num)

/-- C3: calling the transform with a signal whose length differs from
fft_length yields the input error and no output matrix, for every
successfully constructed ST, FST or PWT instance. -/
theorem claim_C3_length_validation :
    (∀ (r : ℕ) (mi : ℤ) (mx : Option ℤ) (s : ℤ) (f n : ℚ) (c : STConf)
       (fill : ℕ → ℕ → ℚ × ℚ) (data : List ℚ),
       ST.init r mi mx s f n = Except.ok c →
       (data.length : ℤ) ≠ c.fft_length →
       ST.st c fill data = Except.error "invalid audio length") ∧
    (∀ (r : ℕ) (mi : ℤ) (mx : Option ℤ) (s : ℤ) (c : FSTConf)
       (fill : ℕ → ℕ → ℚ × ℚ) (data : List ℚ),
       FST.init r mi mx s = Except.ok c →
       (data.length : ℤ) ≠ c.fft_length →
       FST.fst c fill data = Except.error "invalid audio length") ∧
    (∀ (num : ℤ) (r : ℕ) (s : ℤ) (lf hf : Option ℚ) (bpo : ℤ)
       (sc : SpectralFilterBankScaleType) (sty : SpectralFilterBankStyleType)
       (nt : SpectralFilterBankNormalType) (pad : Bool) (c : PWTConf)
       (fill : ℕ → ℕ → ℚ × ℚ) (data : List ℚ),
       PWT.init num r s lf hf bpo sc sty nt pad = Except.ok c →
       (data.length : ℤ) ≠ c.fft_length →
       PWT.pwt c fill data = Except.error "invalid audio length") := by
  refine ⟨?_, ?_, ?_⟩
  · intro r mi mx s f n c fill data h hlen
    unfold ST.init at h
    obtain ⟨hc, -, -, -⟩ := st_initCore_ok_spec h
    subst hc
    simp only at hlen
    have hne : data.length ≠ 2 ^ r := by
      intro hEq; exact hlen (by exact_mod_cast congrArg (Nat.cast (R := ℤ)) hEq)
    simp [ST.st, check_audio, check_audio_length, hne]
  · intro r mi mx s c fill data h hlen
    unfold FST.init at h
    obtain ⟨hc, -, -, -⟩ := fst_initCore_ok_spec h
    subst hc
    simp only at hlen
    have hne : data.length ≠ 2 ^ r := by
      intro hEq; exact hlen (by exact_mod_cast congrArg (Nat.cast (R := ℤ)) hEq)
    simp [FST.fst, check_audio, check_audio_length, hne]
  · intro num r s lf hf bpo sc sty nt pad c fill data h hlen
    obtain ⟨hc, -, -⟩ := PWT.init_ok_spec h
    subst hc
    simp only at hlen
    have hne : data.length ≠ 2 ^ r := by
      intro hEq; exact hlen (by exact_mod_cast congrArg (Nat.cast (R := ℤ)) hEq)
    simp [PWT.pwt, check_audio, check_audio_length, hne]

/-- C3 witness: a length-4 signal against a radix2_exp 3 (fft_length 8) ST
instance is rejected. -/
theorem claim_C3_length_validation_witness :
    ST.st ⟨3, 32000, 1, 3, 1, 1, 8, 3⟩ (fun _ _ => (0, 0))
        (List.replicate 4 0) = Except.error "invalid audio length" := by
  exact claim_C3_length_validation.1 3 1 Option.none 32000 1 1
    ⟨3, 32000, 1, 3, 1, 1, 8, 3⟩ (fun _ _ => (0, 0)) (List.replicate 4 0)
    (by norm_num [ST.init, ST.initCore]) (by norm_num)

/-- C4: the claim says an FST with max_index equal to fft_length / 2 is
accepted; the code rejects it.  With radix2_exp 3 (fft_length 8) and
max_index 4 = fft_length / 2, FST.__init__ raises, because its check uses
max_index >= fft_length / 2 even though its own docstring gives the range
(min_index, fft_length/2] and its own error message says the value must be
less than or equal to fft_length/2. -/
theorem claim_C4_fst_rejects_half_fft_length :
    FST.init 3 1 (Option.some 4) 32000 =
      Except.error "max_index must be less than or equal to fft_length div 2" := by
  norm_num [FST.init, FST.initCore]

/-- C5: for every successfully constructed instance, y_coords returns the
num center frequencies of the frequency band array with one duplicate of the
first entry prepended: a length num + 1 list whose entries at positions 0
and 1 both equal the first center frequency. -/
theorem claim_C5_y_coords :
    (∀ (r : ℕ) (mi : ℤ) (mx : Option ℤ) (s : ℤ) (f n : ℚ) (c : STConf),
      ST.init r mi mx s f n = Except.ok c →
      ∃ h l, (ST.get_fre_band_arr c).head? = Option.some h ∧
        ST.y_coords c = Except.ok l ∧ l = h :: ST.get_fre_band_arr c ∧
        (l.length : ℤ) = c.num + 1 ∧
        l.get? 0 = Option.some h ∧ l.get? 1 = Option.some h) ∧
    (∀ (r : ℕ) (mi : ℤ) (mx : Option ℤ) (s : ℤ) (c : FSTConf),
      FST.init r mi mx s = Except.ok c →
      ∃ h l, (FST.get_fre_band_arr c).head? = Option.some h ∧
        FST.y_coords c = Except.ok l ∧ l = h :: FST.get_fre_band_arr c ∧
        (l.length : ℤ) = c.num + 1 ∧
        l.get? 0 = Option.some h ∧ l.get? 1 = Option.some h) ∧
    (∀ (num : ℤ) (r : ℕ) (s : ℤ) (lf hf : Option ℚ) (bpo : ℤ)
       (sc : SpectralFilterBankScaleType) (sty : SpectralFilterBankStyleType)
       (nt : SpectralFilterBankNormalType) (pad : Bool) (c : PWTConf),
      PWT.init num r s lf hf bpo sc sty nt pad = Except.ok c →
      (PWT.get_fre_band_arr c).head? = Option.some c.low_fre ∧
        PWT.y_coords c = c.low_fre :: PWT.get_fre_band_arr c ∧
        ((PWT.y_coords c).length : ℤ) = c.num + 1 ∧
        (PWT.y_coords c).get? 0 = Option.some c.low_fre ∧
        (PWT.y_coords c).get? 1 = Option.some c.low_fre) := by
  refine ⟨?_, ?_, ?_⟩
  · intro r mi mx s f n c h
    unfold ST.init at h
    obtain ⟨hc, hmi, hmx, hlt⟩ := st_initCore_ok_spec h
    subst hc
    have hn : 0 < (mx.getD ((2 ^ r : ℤ) / 2 - 1) - mi + 1).toNat := by omega
    have hhead : (ST.get_fre_band_arr
        ⟨r, s, mi, mx.getD ((2 ^ r : ℤ) / 2 - 1), f, n, 2 ^ r,
         mx.getD ((2 ^ r : ℤ) / 2 - 1) - mi + 1⟩).head? =
        Option.some (((mi + (0 : ℤ) : ℤ) : ℚ) * (s : ℚ) / ((2 ^ r : ℤ) : ℚ)) := by
      rw [← List.get?_zero]
      simp only [ST.get_fre_band_arr]
      rw [List.get?_map, List.get?_range (by simpa using hn)]
      rfl
    refine ⟨_, _, hhead, ?_, rfl, ?_, rfl, ?_⟩
    · unfold ST.y_coords
      rw [hhead]
    · simp only [List.length_cons, ST.get_fre_band_arr, List.length_map,
        List.length_range]
      push_cast [Int.toNat_of_nonneg (by omega : (0 : ℤ) ≤
        mx.getD ((2 ^ r : ℤ) / 2 - 1) - mi + 1)]
      ring
    · rw [List.get?_cons_succ, List.get?_zero]
      exact hhead
  · intro r mi mx s c h
    unfold FST.init at h
    obtain ⟨hc, hmi, hmx, hlt⟩ := fst_initCore_ok_spec h
    subst hc
    have hn : 0 < (mx.getD ((2 ^ r : ℤ) / 2 - 1) - mi + 1).toNat := by omega
    have hhead : (FST.get_fre_band_arr
        ⟨r, mi, mx.getD ((2 ^ r : ℤ) / 2 - 1), s, 2 ^ r,
         mx.getD ((2 ^ r : ℤ) / 2 - 1) - mi + 1⟩).head? =
        Option.some (((mi + (0 : ℤ) : ℤ) : ℚ) * (s : ℚ) / ((2 ^ r : ℤ) : ℚ)) := by
      rw [← List.get?_zero]
      simp only [FST.get_fre_band_arr]
      rw [List.get?_map, List.get?_range (by simpa using hn)]
      rfl
    refine ⟨_, _, hhead, ?_, rfl, ?_, rfl, ?_⟩
    · unfold FST.y_coords
      rw [hhead]
    · simp only [List.length_cons, FST.get_fre_band_arr, List.length_map,
        List.length_range]
      push_cast [Int.toNat_of_nonneg (by omega : (0 : ℤ) ≤
        mx.getD ((2 ^ r : ℤ) / 2 - 1) - mi + 1)]
      ring
    · rw [List.get?_cons_succ, List.get?_zero]
      exact hhead
  · intro num r s lf hf bpo sc sty nt pad c h
    obtain ⟨hc, hnum, hs⟩ := PWT.init_ok_spec h
    subst hc
    have hn : 0 < (num : ℤ).toNat := by omega
    have hhead : (PWT.get_fre_band_arr
        ⟨num, r, s, PWT.resolve_low_fre lf sc, PWT.resolve_high_fre hf s, bpo,
         sc, sty, nt, pad, 2 ^ r⟩).head? =
        Option.some (PWT.resolve_low_fre lf sc) := by
      rw [← List.get?_zero]
      simp only [PWT.get_fre_band_arr]
      rw [List.get?_map, List.get?_range (by simpa using hn)]
      simp only [Option.map]
      congr 1
      split <;> norm_num
    refine ⟨hhead, rfl, ?_, rfl, ?_⟩
    · simp only [PWT.y_coords, List.length_cons, PWT.get_fre_band_arr,
        List.length_map, List.length_range]
      push_cast [Int.toNat_of_nonneg (by omega : (0 : ℤ) ≤ num)]
      ring
    · unfold PWT.y_coords
      rw [List.get?_cons_succ, List.get?_zero]
      exact hhead

/-- C5 witness: concrete ST and PWT instances. -/
theorem claim_C5_y_coords_witness :
    (∃ h l, (ST.get_fre_band_arr ⟨3, 32000, 1, 3, 1, 1, 8, 3⟩).head? =
        Option.some h ∧
      ST.y_coords ⟨3, 32000, 1, 3, 1, 1, 8, 3⟩ = Except.ok l ∧
      l = h :: ST.get_fre_band_arr ⟨3, 32000, 1, 3, 1, 1, 8, 3⟩ ∧
      (l.length : ℤ) = (⟨3, 32000, 1, 3, 1, 1, 8, 3⟩ : STConf).num + 1 ∧
      l.get? 0 = Option.some h ∧ l.get? 1 = Option.some h) ∧
    ((PWT.get_fre_band_arr
        ⟨84, 12, 32000, 32703 / 1000, 16000, 12,
         SpectralFilterBankScaleType.octave, SpectralFilterBankStyleType.slaney,
         SpectralFilterBankNormalType.norm_none, true, 4096⟩).head? =
      Option.some (32703 / 1000) ∧
     PWT.y_coords
        ⟨84, 12, 32000, 32703 / 1000, 16000, 12,
         SpectralFilterBankScaleType.octave, SpectralFilterBankStyleType.slaney,
         SpectralFilterBankNormalType.norm_none, true, 4096⟩ =
       (32703 / 1000 : ℚ) :: PWT.get_fre_band_arr
        ⟨84, 12, 32000, 32703 / 1000, 16000, 12,
         SpectralFilterBankScaleType.octave, SpectralFilterBankStyleType.slaney,
         SpectralFilterBankNormalType.norm_none, true, 4096⟩ ∧
     ((PWT.y_coords
        ⟨84, 12, 32000, 32703 / 1000, 16000, 12,
         SpectralFilterBankScaleType.octave, SpectralFilterBankStyleType.slaney,
         SpectralFilterBankNormalType.norm_none, true, 4096⟩).length : ℤ) =
       (84 : ℤ) + 1 ∧
     (PWT.y_coords
        ⟨84, 12, 32000, 32703 / 1000, 16000, 12,
         SpectralFilterBankScaleType.octave, SpectralFilterBankStyleType.slaney,
         SpectralFilterBankNormalType.norm_none, true, 4096⟩).get? 0 =
       Option.some (32703 / 1000) ∧
     (PWT.y_coords
        ⟨84, 12, 32000, 32703 / 1000, 16000, 12,
         SpectralFilterBankScaleType.octave, SpectralFilterBankStyleType.slaney,
         SpectralFilterBankNormalType.norm_none, true, 4096⟩).get? 1 =
       Option.some (32703 / 1000)) := by
  constructor
  · exact claim_C5_y_coords.1 3 1 Option.none 32000 1 1
      ⟨3, 32000, 1, 3, 1, 1, 8, 3⟩ (by norm_num [ST.init, ST.initCore])
  · exact claim_C5_y_coords.2.2 84 12 32000 (Option.some (32703 / 1000))
      Option.none 12 SpectralFilterBankScaleType.octave
      SpectralFilterBankStyleType.slaney SpectralFilterBankNormalType.norm_none
      true
      ⟨84, 12, 32000, 32703 / 1000, 16000, 12,
       SpectralFilterBankScaleType.octave, SpectralFilterBankStyleType.slaney,
       SpectralFilterBankNormalType.norm_none, true, 4096⟩
      (by norm_num [PWT.init, PWT.resolve_low_fre, PWT.resolve_high_fre,
            note_to_hz_C1, PWT.native_new_valid])

/-- C6 counterexample: a PWT constructed with samplate 8000 and the Python
default high_fre keyword (the literal 16000.0) is successfully constructed
with effective high_fre 16000, which is not samplate / 2 = 4000. -/
theorem claim_C6_counterexample :
    (PWT.init 84 12 8000 (Option.some 0) PWT.default_high_fre 12
        SpectralFilterBankScaleType.linear SpectralFilterBankStyleType.slaney
        SpectralFilterBankNormalType.norm_none true).toOption.map
      PWTConf.high_fre = Option.some 16000 ∧
    (16000 : ℚ) ≠ ((8000 : ℤ) : ℚ) / 2 := by
  have hoct : SpectralFilterBankScaleType.linear ≠
      SpectralFilterBankScaleType.octave := by decide
  have hlog : SpectralFilterBankScaleType.linear ≠
      SpectralFilterBankScaleType.log := by decide
  constructor
  · norm_num [PWT.init, PWT.resolve_low_fre, PWT.resolve_high_fre,
      PWT.default_high_fre, note_to_hz_C1, PWT.native_new_valid,
      Except.toOption, hoct, hlog]
  · norm_num

/-- C6 (amended): a PWT constructed without an explicitly supplied high_fre
uses the literal Python default 16000.0 (which equals samplate / 2 only when
samplate = 32000); the derived default samplate / 2 applies only when
high_fre is explicitly passed as None. -/
theorem claim_C6_high_fre_default :
    (∀ (num : ℤ) (r : ℕ) (s : ℤ) (lf : Option ℚ) (bpo : ℤ)
       (sc : SpectralFilterBankScaleType) (sty : SpectralFilterBankStyleType)
       (nt : SpectralFilterBankNormalType) (pad : Bool) (c : PWTConf),
      PWT.init num r s lf PWT.default_high_fre bpo sc sty nt pad =
        Except.ok c → c.high_fre = 16000) ∧
    (∀ (num : ℤ) (r : ℕ) (s : ℤ) (lf : Option ℚ) (bpo : ℤ)
       (sc : SpectralFilterBankScaleType) (sty : SpectralFilterBankStyleType)
       (nt : SpectralFilterBankNormalType) (pad : Bool) (c : PWTConf),
      PWT.init num r s lf Option.none bpo sc sty nt pad =
        Except.ok c → c.high_fre = (s : ℚ) / 2) := by
  constructor
  · intro num r s lf bpo sc sty nt pad c h
    obtain ⟨hc, -, -⟩ := PWT.init_ok_spec h
    subst hc
    simp [PWT.resolve_high_fre, PWT.default_high_fre]
  · intro num r s lf bpo sc sty nt pad c h
    obtain ⟨hc, -, -⟩ := PWT.init_ok_spec h
    subst hc
    simp [PWT.resolve_high_fre]

/-- C6 witness: with the default high_fre keyword and samplate 8000 the
stored high_fre is 16000; with an explicit None and samplate 8000 it is
4000 = samplate / 2. -/
theorem claim_C6_high_fre_default_witness :
    (⟨84, 12, 8000, 0, 16000, 12, SpectralFilterBankScaleType.linear,
      SpectralFilterBankStyleType.slaney,
      SpectralFilterBankNormalType.norm_none, true, 4096⟩ : PWTConf).high_fre =
      16000 ∧
    (⟨84, 12, 8000, 0, 4000, 12, SpectralFilterBankScaleType.linear,
      SpectralFilterBankStyleType.slaney,
      SpectralFilterBankNormalType.norm_none, true, 4096⟩ : PWTConf).high_fre =
      ((8000 : ℤ) : ℚ) / 2 := by
  constructor
  · exact claim_C6_high_fre_default.1 84 12 8000 (Option.some 0) 12
      SpectralFilterBankScaleType.linear SpectralFilterBankStyleType.slaney
      SpectralFilterBankNormalType.norm_none true _
      (by norm_num [PWT.init, PWT.resolve_low_fre, PWT.resolve_high_fre,
        PWT.default_high_fre, note_to_hz_C1, PWT.native_new_valid,
        show SpectralFilterBankScaleType.linear ≠
          SpectralFilterBankScaleType.octave from by decide,
        show SpectralFilterBankScaleType.linear ≠
          SpectralFilterBankScaleType.log from by decide])
  · exact claim_C6_high_fre_default.2 84 12 8000 (Option.some 0) 12
      SpectralFilterBankScaleType.linear SpectralFilterBankStyleType.slaney
      SpectralFilterBankNormalType.norm_none true _
      (by norm_num [PWT.init, PWT.resolve_low_fre, PWT.resolve_high_fre,
        note_to_hz_C1, PWT.native_new_valid,
        show SpectralFilterBankScaleType.linear ≠
          SpectralFilterBankScaleType.octave from by decide,
        show SpectralFilterBankScaleType.linear ≠
          SpectralFilterBankScaleType.log from by decide])

/-- C7: with otherwise valid parameters, min_index = max_index - 1 (the
tightest legal band) constructs successfully, while min_index = max_index is
rejected at construction time with the min/max ValueError, for both ST and
FST. -/
theorem claim_C7_tightest_band (r : ℕ) (mi s : ℤ) (f n : ℚ)
    (hmi : 1 ≤ mi) (hlt : ((mi + 1 : ℤ) : ℚ) < ((2 ^ r : ℤ) : ℚ) / 2) :
    exceptOk (ST.init r mi (Option.some (mi + 1)) s f n) = true ∧
    ST.init r mi (Option.some mi) s f n =
      Except.error "min_index must be less than max_index" ∧
    exceptOk (FST.init r mi (Option.some (mi + 1)) s) = true ∧
    FST.init r mi (Option.some mi) s =
      Except.error "min_index must be less than max_index" := by
  have hmiQ : ((mi : ℤ) : ℚ) < ((2 ^ r : ℤ) : ℚ) / 2 := by
    have : ((mi : ℤ) : ℚ) < ((mi + 1 : ℤ) : ℚ) := by push_cast; linarith
    linarith
  refine ⟨?_, ?_, ?_, ?_⟩
  · unfold ST.init
    rw [Option.getD_some, st_initCore_ok_of hmi hlt (by omega)]
    rfl
  · unfold ST.init ST.initCore
    rw [Option.getD_some, if_neg (by omega), if_neg (by push_neg; exact hmiQ),
      if_pos (by omega)]
  · unfold FST.init
    rw [Option.getD_some, fst_initCore_ok_of hmi hlt (by omega)]
    rfl
  · unfold FST.init FST.initCore
    rw [Option.getD_some, if_neg (by omega), if_neg (by push_neg; exact hmiQ),
      if_pos (by omega)]

/-- C7 witness: radix2_exp 3, min_index 1 against max_index 2 and 1. -/
theorem claim_C7_tightest_band_witness :
    exceptOk (ST.init 3 1 (Option.some 2) 32000 1 1) = true ∧
    ST.init 3 1 (Option.some 1) 32000 1 1 =
      Except.error "min_index must be less than max_index" ∧
    exceptOk (FST.init 3 1 (Option.some 2) 32000) = true ∧
    FST.init 3 1 (Option.some 1) 32000 =
      Except.error "min_index must be less than max_index" := by
  have h := claim_C7_tightest_band 3 1 32000 1 1 (by norm_num) (by norm_num)
  exact h

/-- C8: for the octave and log scales (with otherwise valid parameters),
low_fre exactly 32.703 is accepted at construction, and every low_fre
strictly below 32.703 is rejected with the low_fre ConfigError before
construction completes. -/
theorem claim_C8_low_fre_threshold (num : ℤ) (r : ℕ) (s : ℤ)
    (hfo : Option ℚ) (bpo : ℤ) (sc : SpectralFilterBankScaleType)
    (sty : SpectralFilterBankStyleType) (nt : SpectralFilterBankNormalType)
    (pad : Bool)
    (hsc : sc = SpectralFilterBankScaleType.octave ∨
           sc = SpectralFilterBankScaleType.log)
    (hbpo : 1 ≤ bpo) (hnum : 1 ≤ num) (hs : 1 ≤ s) :
    exceptOk (PWT.init num r s (Option.some note_to_hz_C1) hfo bpo
      sc sty nt pad) = true ∧
    ∀ q : ℚ, q < note_to_hz_C1 →
      PWT.init num r s (Option.some q) hfo bpo sc sty nt pad =
        Except.error "low_fre must be greater than or equal to 32.703" := by
  constructor
  · rw [PWT.init_ok_of (fun _ => hbpo)
      (fun _ => by simp [PWT.resolve_low_fre])
      (by norm_num [PWT.resolve_low_fre, note_to_hz_C1]) hnum hs]
    rfl
  · intro q hq
    unfold PWT.init
    rw [if_neg (by rintro ⟨-, h⟩; omega),
      if_pos ⟨hsc, by simpa [PWT.resolve_low_fre] using hq⟩]

/-- C8 witness: an octave-scale PWT with low_fre 32.703 is constructed,
while low_fre 32.702 is rejected. -/
theorem claim_C8_low_fre_threshold_witness :
    exceptOk (PWT.init 84 12 32000 (Option.some (32703 / 1000)) Option.none
      12 SpectralFilterBankScaleType.octave SpectralFilterBankStyleType.slaney
      SpectralFilterBankNormalType.norm_none true) = true ∧
    PWT.init 84 12 32000 (Option.some (32702 / 1000)) Option.none 12
      SpectralFilterBankScaleType.octave SpectralFilterBankStyleType.slaney
      SpectralFilterBankNormalType.norm_none true =
      Except.error "low_fre must be greater than or equal to 32.703" := by
  have h := claim_C8_low_fre_threshold 84 12 32000 Option.none 12
    SpectralFilterBankScaleType.octave SpectralFilterBankStyleType.slaney
    SpectralFilterBankNormalType.norm_none true (Or.inl rfl)
    (by norm_num) (by norm_num) (by norm_num)
  exact ⟨h.1, h.2 (32702 / 1000) (by norm_num [note_to_hz_C1])⟩

/-- Helper: full characterization of x_coords_generic for a nonzero
samplate: fft_length + 1 values, the i-th being i * (fft_length / samplate)
/ fft_length, hence first 0, last fft_length / samplate, and each entry
exceeding its predecessor by the constant step (fft_length / samplate) /
fft_length. -/
theorem x_coords_generic_spec (fft s : ℤ) (hfft : 0 < fft) (hs : s ≠ 0) :
    ∃ l, x_coords_generic fft s = Except.ok l ∧
      (l.length : ℤ) = fft + 1 ∧
      l.get? 0 = Option.some 0 ∧
      l.get? fft.toNat = Option.some ((fft : ℚ) / (s : ℚ)) ∧
      ∀ i, i + 1 < l.length →
        l.get? (i + 1) = (l.get? i).map
          (fun a => a + ((fft : ℚ) / (s : ℚ)) / (fft : ℚ)) := by
  have hmZ : (fft.toNat : ℤ) = fft := Int.toNat_of_nonneg hfft.le
  have hm : ((fft.toNat : ℕ) : ℚ) = (fft : ℚ) := by exact_mod_cast hmZ
  have hfQ : (fft : ℚ) ≠ 0 := by exact_mod_cast hfft.ne'
  have hmQ : ((fft.toNat : ℕ) : ℚ) ≠ 0 := by rw [hm]; exact hfQ
  have hform : linspace 0 ((fft : ℚ) / (s : ℚ)) (fft.toNat + 1) =
      (List.range (fft.toNat + 1)).map
        (fun (i : ℕ) => ((fft : ℚ) / (s : ℚ)) * (i : ℚ) / ((fft.toNat : ℕ) : ℚ)) := by
    simp only [linspace]
    apply List.map_congr_left
    intro i _
    push_cast
    ring
  refine ⟨_, by rw [x_coords_generic, if_neg hs], ?_, ?_, ?_, ?_⟩
  · simp only [linspace, List.length_map, List.length_range]
    push_cast [hmZ]
    ring
  · rw [hform, List.get?_map, List.get?_range (by omega)]
    norm_num
  · rw [hform, List.get?_map, List.get?_range (by omega)]
    simp only [Option.map_some']
    congr 1
    rw [mul_div_assoc, hm, div_self hfQ, mul_one]
  · intro i h
    have hlen : i + 1 < fft.toNat + 1 := by
      simpa [linspace, List.length_map, List.length_range] using h
    rw [hform, List.get?_map, List.get?_map, List.get?_range (by omega),
      List.get?_range (by omega)]
    simp only [Option.map_some']
    congr 1
    rw [hm]
    field_simp
    ring

/-- C9 (amended): for every successfully constructed ST, FST or PWT instance
with nonzero samplate, x_coords returns fft_length + 1 evenly spaced values,
the first 0, the last fft_length / samplate, consecutive values differing by
the constant (fft_length / samplate) / fft_length. -/
theorem claim_C9_x_coords :
    (∀ (r : ℕ) (mi : ℤ) (mx : Option ℤ) (s : ℤ) (f n : ℚ) (c : STConf),
      ST.init r mi mx s f n = Except.ok c → c.samplate ≠ 0 →
      ∃ l, ST.x_coords c = Except.ok l ∧
        (l.length : ℤ) = c.fft_length + 1 ∧
        l.get? 0 = Option.some 0 ∧
        l.get? c.fft_length.toNat =
          Option.some ((c.fft_length : ℚ) / (c.samplate : ℚ)) ∧
        ∀ i, i + 1 < l.length →
          l.get? (i + 1) = (l.get? i).map
            (fun a => a + ((c.fft_length : ℚ) / (c.samplate : ℚ)) /
              (c.fft_length : ℚ))) ∧
    (∀ (r : ℕ) (mi : ℤ) (mx : Option ℤ) (s : ℤ) (c : FSTConf),
      FST.init r mi mx s = Except.ok c → c.samplate ≠ 0 →
      ∃ l, FST.x_coords c = Except.ok l ∧
        (l.length : ℤ) = c.fft_length + 1 ∧
        l.get? 0 = Option.some 0 ∧
        l.get? c.fft_length.toNat =
          Option.some ((c.fft_length : ℚ) / (c.samplate : ℚ)) ∧
        ∀ i, i + 1 < l.length →
          l.get? (i + 1) = (l.get? i).map
            (fun a => a + ((c.fft_length : ℚ) / (c.samplate : ℚ)) /
              (c.fft_length : ℚ))) ∧
    (∀ (num : ℤ) (r : ℕ) (s : ℤ) (lf hf : Option ℚ) (bpo : ℤ)
       (sc : SpectralFilterBankScaleType) (sty : SpectralFilterBankStyleType)
       (nt : SpectralFilterBankNormalType) (pad : Bool) (c : PWTConf),
      PWT.init num r s lf hf bpo sc sty nt pad = Except.ok c →
      c.samplate ≠ 0 →
      ∃ l, PWT.x_coords c = Except.ok l ∧
        (l.length : ℤ) = c.fft_length + 1 ∧
        l.get? 0 = Option.some 0 ∧
        l.get? c.fft_length.toNat =
          Option.some ((c.fft_length : ℚ) / (c.samplate : ℚ)) ∧
        ∀ i, i + 1 < l.length →
          l.get? (i + 1) = (l.get? i).map
            (fun a => a + ((c.fft_length : ℚ) / (c.samplate : ℚ)) /
              (c.fft_length : ℚ))) := by
  refine ⟨?_, ?_, ?_⟩
  · intro r mi mx s f n c h hs
    unfold ST.init at h
    obtain ⟨hc, -, -, -⟩ := st_initCore_ok_spec h
    subst hc
    dsimp only [ST.x_coords] at hs ⊢
    exact x_coords_generic_spec (2 ^ r) s (by positivity) hs
  · intro r mi mx s c h hs
    unfold FST.init at h
    obtain ⟨hc, -, -, -⟩ := fst_initCore_ok_spec h
    subst hc
    dsimp only [FST.x_coords] at hs ⊢
    exact x_coords_generic_spec (2 ^ r) s (by positivity) hs
  · intro num r s lf hf bpo sc sty nt pad c h hs
    obtain ⟨hc, -, -⟩ := PWT.init_ok_spec h
    subst hc
    dsimp only [PWT.x_coords] at hs ⊢
    exact x_coords_generic_spec (2 ^ r) s (by positivity) hs

/-- C9 counterexample: the ST instance with samplate 0 is successfully
constructed, yet its x_coords call raises ZeroDivisionError and returns no
values at all. -/
theorem claim_C9_counterexample :
    (ST.init 3 1 Option.none 0 1 1).toOption.map
      (fun c => exceptOk (ST.x_coords c)) = Option.some false := by
  have h0 : ST.init 3 1 Option.none 0 1 1 =
      Except.ok ⟨3, 0, 1, 3, 1, 1, 8, 3⟩ := by
    norm_num [ST.init, ST.initCore]
  rw [h0]
  simp [Except.toOption, ST.x_coords, x_coords_generic, exceptOk]

/-- C9 witness: the ST instance with radix2_exp 3 and samplate 32000. -/
theorem claim_C9_x_coords_witness :
    ∃ l, ST.x_coords ⟨3, 32000, 1, 3, 1, 1, 8, 3⟩ = Except.ok l ∧
      (l.length : ℤ) = (⟨3, 32000, 1, 3, 1, 1, 8, 3⟩ : STConf).fft_length + 1 ∧
      l.get? 0 = Option.some 0 ∧
      l.get? (⟨3, 32000, 1, 3, 1, 1, 8, 3⟩ : STConf).fft_length.toNat =
        Option.some (((⟨3, 32000, 1, 3, 1, 1, 8, 3⟩ : STConf).fft_length : ℚ) /
          ((32000 : ℤ) : ℚ)) ∧
      ∀ i, i + 1 < l.length →
        l.get? (i + 1) = (l.get? i).map
          (fun a => a +
            (((⟨3, 32000, 1, 3, 1, 1, 8, 3⟩ : STConf).fft_length : ℚ) /
              ((32000 : ℤ) : ℚ)) /
            ((⟨3, 32000, 1, 3, 1, 1, 8, 3⟩ : STConf).fft_length : ℚ)) := by
  exact claim_C9_x_coords.1 3 1 Option.none 32000 1 1
    ⟨3, 32000, 1, 3, 1, 1, 8, 3⟩
    (by norm_num [ST.init, ST.initCore]) (by norm_num)

/-- C10: when max_index is omitted it defaults to fft_length / 2 - 1 for
both ST and FST, and consequently for radix2_exp 1 or 2 with the default
min_index 1 the construction always raises the min/max ValueError, for
every samplate, factor and norm. -/
theorem claim_C10_default_max_index :
    (∀ (r : ℕ) (mi s : ℤ) (f n : ℚ) (c : STConf),
      ST.init r mi Option.none s f n = Except.ok c →
      c.max_index = (2 ^ r : ℤ) / 2 - 1) ∧
    (∀ (r : ℕ) (mi s : ℤ) (c : FSTConf),
      FST.init r mi Option.none s = Except.ok c →
      c.max_index = (2 ^ r : ℤ) / 2 - 1) ∧
    (∀ (s : ℤ) (f n : ℚ),
      ST.init 1 1 Option.none s f n =
        Except.error "min_index must be less than max_index" ∧
      ST.init 2 1 Option.none s f n =
        Except.error "min_index must be less than max_index") ∧
    (∀ (s : ℤ),
      FST.init 1 1 Option.none s =
        Except.error "min_index must be less than max_index" ∧
      FST.init 2 1 Option.none s =
        Except.error "min_index must be less than max_index") := by
  refine ⟨?_, ?_, ?_, ?_⟩
  · intro r mi s f n c h
    unfold ST.init at h
    obtain ⟨hc, -, -, -⟩ := st_initCore_ok_spec h
    subst hc
    simp
  · intro r mi s c h
    unfold FST.init at h
    obtain ⟨hc, -, -, -⟩ := fst_initCore_ok_spec h
    subst hc
    simp
  · intro s f n
    constructor <;> norm_num [ST.init, ST.initCore]
  · intro s
    constructor <;> norm_num [FST.init, FST.initCore]

/-- C10 witness: the default-constructed radix2_exp 3 ST instance has
max_index 3 = fft_length / 2 - 1, and the radix2_exp 1 and 2 constructions
fail at concrete parameters. -/
theorem claim_C10_default_max_index_witness :
    (⟨3, 32000, 1, 3, 1, 1, 8, 3⟩ : STConf).max_index =
      (2 ^ 3 : ℤ) / 2 - 1 ∧
    ST.init 1 1 Option.none 32000 1 1 =
      Except.error "min_index must be less than max_index" ∧
    FST.init 2 1 Option.none 32000 =
      Except.error "min_index must be less than max_index" := by
  refine ⟨?_, ?_, ?_⟩
  · exact claim_C10_default_max_index.1 3 1 32000 1 1
      ⟨3, 32000, 1, 3, 1, 1, 8, 3⟩ (by norm_num [ST.init, ST.initCore])
  · exact (claim_C10_default_max_index.2.2.1 32000 1 1).1
  · exact (claim_C10_default_max_index.2.2.2 32000).2
